import Mathlib

/-!
Shallow embedding of the mass-spring simulation core
(`physics_config/spring_physics.py`) and verification of its specification.

Conventions of the embedding:
* Python floats are modelled as exact numbers: parameter fields and the
  trajectory arrays produced by the integrator are rationals (so that concrete
  runs evaluate), while derived quantities computed through `np.sqrt`,
  `np.cos`, `np.exp`, the FFT, ... live in `ℝ`.
* numpy arrays are Lean lists; elementwise numpy operations are `List.map` /
  `List.zipWith`.
* Python code that can raise returns `Except`; the scipy integrator `odeint`
  is an external library and is taken as an explicit function parameter.
-/

/-- `DampingType` enum of the source. -/
inductive DampingType where
  | UNDAMPED
  | UNDERDAMPED
  | CRITICALLY_DAMPED
  | OVERDAMPED
deriving DecidableEq, Repr

/-- `SpringParameters` dataclass: numerical fields only (`name` and
`description` are display metadata, unused in computation). -/
structure SpringParameters where
  m : ℚ
  k : ℚ
  c : ℚ
  x0 : ℚ
  v0 : ℚ
deriving DecidableEq, Repr

/-- `omega_n` property: `np.sqrt(k / m)`. -/
noncomputable def omega_n (p : SpringParameters) : ℝ :=
  Real.sqrt ((p.k : ℝ) / (p.m : ℝ))

/-- `zeta` property: `c / (2 * np.sqrt(k * m))`. -/
noncomputable def zeta (p : SpringParameters) : ℝ :=
  (p.c : ℝ) / (2 * Real.sqrt ((p.k : ℝ) * (p.m : ℝ)))

/-- Damped frequency `omega_d = omega_n * np.sqrt(1 - zeta**2)`, computed
inline at several places of the source. -/
noncomputable def omega_d (p : SpringParameters) : ℝ :=
  omega_n p * Real.sqrt (1 - (zeta p) ^ 2)

/-- `np.isclose(a, b, rtol, atol)` on scalars: `|a - b| ≤ atol + rtol * |b|`
(numpy's defining formula; numpy's default absolute tolerance is `1e-8`). -/
def np_isclose (a b rtol atol : ℝ) : Prop :=
  |a - b| ≤ atol + rtol * |b|

/-- numpy's default `atol` for `np.isclose`. -/
noncomputable def np_atol : ℝ := 1 / 100000000

open Classical in
/-- `damping_type` property: `if c == 0 → UNDAMPED; elif np.isclose(zeta, 1,
rtol=0.1) → CRITICALLY_DAMPED; elif zeta < 1 → UNDERDAMPED; else OVERDAMPED`. -/
noncomputable def damping_type (p : SpringParameters) : DampingType :=
  if p.c = 0 then DampingType.UNDAMPED
  else if np_isclose (zeta p) 1 (1 / 10) np_atol then DampingType.CRITICALLY_DAMPED
  else if zeta p < 1 then DampingType.UNDERDAMPED
  else DampingType.OVERDAMPED

open Classical in
/-- Branch selector of `analytical_solution`, mirroring its `if/elif` chain
verbatim: `if c == 0 → undamped; elif zeta < 1 → underdamped;
elif np.isclose(zeta, 1, rtol=0.1) → critically damped; else overdamped`.
Note the source tests `zeta < 1` BEFORE the near-critical band here, in the
opposite order to `damping_type`. -/
noncomputable def analytical_branch (p : SpringParameters) : DampingType :=
  if p.c = 0 then DampingType.UNDAMPED
  else if zeta p < 1 then DampingType.UNDERDAMPED
  else if np_isclose (zeta p) 1 (1 / 10) np_atol then DampingType.CRITICALLY_DAMPED
  else DampingType.OVERDAMPED

/-- `analytical_solution(params, t)` pointwise (the source maps the same
closed-form expressions over a time array): returns `(x(t), v(t))` for the
branch selected by `analytical_branch`. -/
noncomputable def analytical_solution (p : SpringParameters) (t : ℝ) : ℝ × ℝ :=
  match analytical_branch p with
  | DampingType.UNDAMPED =>
    let A : ℝ := (p.x0 : ℝ)
    let B : ℝ := (p.v0 : ℝ) / omega_n p
    (A * Real.cos (omega_n p * t) + B * Real.sin (omega_n p * t),
     -A * omega_n p * Real.sin (omega_n p * t) + B * omega_n p * Real.cos (omega_n p * t))
  | DampingType.UNDERDAMPED =>
    let alpha := zeta p * omega_n p
    let A : ℝ := (p.x0 : ℝ)
    let B : ℝ := ((p.v0 : ℝ) + alpha * (p.x0 : ℝ)) / omega_d p
    (Real.exp (-alpha * t) * (A * Real.cos (omega_d p * t) + B * Real.sin (omega_d p * t)),
     Real.exp (-alpha * t) *
       ((-alpha * A + omega_d p * B) * Real.cos (omega_d p * t)
        + (-alpha * B - omega_d p * A) * Real.sin (omega_d p * t)))
  | DampingType.CRITICALLY_DAMPED =>
    let A : ℝ := (p.x0 : ℝ)
    let B : ℝ := (p.v0 : ℝ) + omega_n p * (p.x0 : ℝ)
    (Real.exp (-omega_n p * t) * (A + B * t),
     Real.exp (-omega_n p * t) * (B - omega_n p * (A + B * t)))
  | DampingType.OVERDAMPED =>
    let r1 := -omega_n p * (zeta p + Real.sqrt ((zeta p) ^ 2 - 1))
    let r2 := -omega_n p * (zeta p - Real.sqrt ((zeta p) ^ 2 - 1))
    let A := (r2 * (p.x0 : ℝ) - (p.v0 : ℝ)) / (r2 - r1)
    let B := ((p.v0 : ℝ) - r1 * (p.x0 : ℝ)) / (r2 - r1)
    (A * Real.exp (r1 * t) + B * Real.exp (r2 * t),
     A * r1 * Real.exp (r1 * t) + B * r2 * Real.exp (r2 * t))

/-- `calculate_spring_force`: `F = -k * x`. -/
def calculate_spring_force (spring_constant displacement : ℚ) : ℚ :=
  -spring_constant * displacement

/-- `calculate_damping_force`: `F = -c * v`. -/
def calculate_damping_force (damping_coefficient velocity : ℚ) : ℚ :=
  -damping_coefficient * velocity

/-- `calculate_net_force`: external + spring + damping. -/
def calculate_net_force (spring_constant damping_coefficient displacement velocity
    external_force : ℚ) : ℚ :=
  external_force + calculate_spring_force spring_constant displacement
    + calculate_damping_force damping_coefficient velocity

/-- `calculate_acceleration`: `a = F / m`. -/
def calculate_acceleration (mass net_force : ℚ) : ℚ :=
  net_force / mass

/-- Evaluation of the optional `external_force_function`:
`external_force_function(t) if external_force_function else 0`. -/
def external_force_at (F : Option (ℚ → ℚ)) (t : ℚ) : ℚ :=
  match F with
  | some f => f t
  | none => 0

/-- `spring_system_derivatives(state, time, params, external_force_function)`:
returns `[velocity, acceleration]`. -/
def spring_system_derivatives (state : ℚ × ℚ) (time : ℚ) (p : SpringParameters)
    (F : Option (ℚ → ℚ)) : ℚ × ℚ :=
  let position := state.1
  let velocity := state.2
  let external_force := external_force_at F time
  let net_force := calculate_net_force p.k p.c position velocity external_force
  (velocity, calculate_acceleration p.m net_force)

/-- `np.arange(start, stop, step)`: `max 0 ⌈(stop - start) / step⌉` uniformly
spaced samples starting at `start`. -/
def np_arange (start stop step : ℚ) : List ℚ :=
  (List.range (⌈(stop - start) / step⌉).toNat).map (fun i => start + (i : ℚ) * step)

/-- `calculate_kinetic_energy`: `KE = 0.5 * m * v**2` elementwise. -/
def calculate_kinetic_energy (mass : ℚ) (velocity : List ℚ) : List ℚ :=
  velocity.map (fun v => 1 / 2 * mass * v ^ 2)

/-- `calculate_potential_energy`: `PE = 0.5 * k * x**2` elementwise. -/
def calculate_potential_energy (spring_constant : ℚ) (displacement : List ℚ) : List ℚ :=
  displacement.map (fun x => 1 / 2 * spring_constant * x ^ 2)

/-- Accumulation loop of `calculate_dissipated_energy`: given the running sum
`prev` (value at the previous index), emits
`cur = prev + c * v[i]**2 * dt` for each remaining velocity sample. -/
def dissipated_go (c dt : ℚ) : ℚ → List ℚ → List ℚ
  | _, [] => []
  | prev, vi :: rest =>
    let cur := prev + c * vi ^ 2 * dt
    cur :: dissipated_go c dt cur rest

/-- `calculate_dissipated_energy(c, velocity, dt)`: array of zeros whose
entries from index 1 on are the cumulative sum `E[i] = E[i-1] + c*v[i]**2*dt`
(index 0 stays 0, as in `np.zeros_like` + loop from 1). -/
def calculate_dissipated_energy (damping_coefficient : ℚ) (velocity : List ℚ)
    (time_step : ℚ) : List ℚ :=
  match velocity with
  | [] => []
  | _ :: rest => 0 :: dissipated_go damping_coefficient time_step 0 rest

/-- `calculate_acceleration_array(params, t, x, v, F)`: re-derives the
acceleration at each sample from the net-force expression. -/
def calculate_acceleration_array (p : SpringParameters) (time_array position velocity : List ℚ)
    (F : Option (ℚ → ℚ)) : List ℚ :=
  (time_array.zip (position.zip velocity)).map (fun q =>
    calculate_acceleration p.m
      (calculate_net_force p.k p.c q.2.1 q.2.2 (external_force_at F q.1)))

/-- The dictionary returned by `solve_spring_system`. -/
structure Solution where
  t : List ℚ
  x : List ℚ
  v : List ℚ
  a : List ℚ
  KE : List ℚ
  PE : List ℚ
  E_total : List ℚ
  E_dissipated : List ℚ
  params : SpringParameters
deriving DecidableEq, Repr

/-- The type of the external `scipy.integrate.odeint` routine as
`solve_spring_system` uses it: derivative function, initial state, time grid,
producing the states at the grid (or a solver failure). -/
def OdeintT : Type :=
  ((ℚ × ℚ) → ℚ → ℚ × ℚ) → (ℚ × ℚ) → List ℚ → Except String (List (ℚ × ℚ))

/-- `solve_spring_system(params, time_span, time_step, external_force_function)`.
The body performs no parameter validation: it builds the `np.arange` grid,
hands everything to `odeint` (passed here as the explicit parameter `odeint`,
since scipy is an external library), and assembles the result arrays. -/
def solve_spring_system (odeint : OdeintT) (p : SpringParameters)
    (time_span : ℚ × ℚ) (time_step : ℚ) (F : Option (ℚ → ℚ)) :
    Except String Solution :=
  let time_array := np_arange time_span.1 time_span.2 time_step
  let initial_state := (p.x0, p.v0)
  match odeint (fun s t => spring_system_derivatives s t p F) initial_state time_array with
  | Except.error e => Except.error e
  | Except.ok states =>
    let position := states.map Prod.fst
    let velocity := states.map Prod.snd
    let acceleration := calculate_acceleration_array p time_array position velocity F
    let kinetic_energy := calculate_kinetic_energy p.m velocity
    let potential_energy := calculate_potential_energy p.k position
    let total_energy := List.zipWith (fun a b => a + b) kinetic_energy potential_energy
    let dissipated_energy := calculate_dissipated_energy p.c velocity time_step
    Except.ok ⟨time_array, position, velocity, acceleration, kinetic_energy,
      potential_energy, total_energy, dissipated_energy, p⟩

/-- Explicit-Euler stepper used to instantiate the abstract `odeint`
parameter on concrete runs (any state-stepping routine works; the theorems
about `solve_spring_system` are integrator-independent). -/
def euler_go (f : (ℚ × ℚ) → ℚ → ℚ × ℚ) : (ℚ × ℚ) → List ℚ → List (ℚ × ℚ)
  | _, [] => []
  | y, t :: rest =>
    match rest with
    | [] => [y]
    | t2 :: _ =>
      let d := f y t
      y :: euler_go f (y.1 + (t2 - t) * d.1, y.2 + (t2 - t) * d.2) rest

/-- A total integrator (never fails) with the `OdeintT` interface. -/
def odeint_euler : OdeintT :=
  fun f y0 ts => Except.ok (euler_go f y0 ts)

/-- Python runtime errors that `frequency_analysis` can surface, plus the
descriptive precondition-violation error the specification asks for.
`indexError` models an `IndexError` from sequence indexing (e.g. `t[1]` on a
short array); `valueError` models a `ValueError` (e.g. `np.argmax` of an
empty array); `preconditionError` models an explicit descriptive check such
as `raise ValueError("need at least 2 samples")` placed before any library
call. -/
inductive PyErr where
  | indexError
  | valueError
  | preconditionError
deriving DecidableEq, Repr

/-- One coefficient of `np.fft.fft(x)`:
`X_j = sum_n x[n] * exp(-2*pi*I*j*n/N)`. -/
noncomputable def np_fft_coeff (x : List ℚ) (N j : ℕ) : ℂ :=
  ∑ n ∈ Finset.range N,
    ((x.getD n 0 : ℚ) : ℂ) * Complex.exp (-(2 * Real.pi * Complex.I * j * n) / N)

/-- The normalized amplitude spectrum `np.abs(np.fft.fft(x)) / N * 2`. -/
noncomputable def np_fft_amplitudes (x : List ℚ) (N : ℕ) : List ℝ :=
  (List.range N).map (fun j => Complex.abs (np_fft_coeff x N j) / N * 2)

/-- `np.fft.fftfreq(N, d)`: bin `j` holds `j/(N*d)` for `j < (N+1)/2` (the
non-negative frequencies) and `(j-N)/(N*d)` otherwise. -/
def np_fftfreq (N : ℕ) (d : ℚ) : List ℚ :=
  (List.range N).map (fun j =>
    if j < (N + 1) / 2 then (j : ℚ) / (N * d) else ((j : ℚ) - N) / (N * d))

open Classical in
/-- Scanner of `np.argmax`: returns the index of the first maximum, given the
running best index `bi`, best value `bv` and next index `i`. -/
noncomputable def np_argmax_go : List ℝ → ℕ → ℕ → ℝ → ℕ
  | [], _, bi, _ => bi
  | a :: rest, i, bi, bv =>
    if bv < a then np_argmax_go rest (i + 1) i a else np_argmax_go rest (i + 1) bi bv

/-- The dictionary returned by `frequency_analysis`. -/
structure FreqResult where
  frequencies : List ℚ
  amplitudes : List ℝ
  dominant_freq : ℚ
  theoretical_freq : ℝ
  freq_error : ℝ

open Classical in
/-- `frequency_analysis(solution)`. Mirrors the source: `dt = t[1] - t[0]`
(an `IndexError` when fewer than 2 samples exist), FFT amplitudes, restriction
to strictly positive frequency bins, `np.argmax` for the dominant frequency
(a `ValueError` when no positive bin exists), then the theoretical frequency
`omega_d/(2*pi)` for `zeta < 0.9` (else 0) and the relative error in percent
for `theoretical_freq > 0` (else 0). -/
noncomputable def frequency_analysis (sol : Solution) : Except PyErr FreqResult :=
  match sol.t with
  | t0 :: t1 :: _ =>
    let dt := t1 - t0
    let N := sol.t.length
    let amplitudes := np_fft_amplitudes sol.x N
    let frequencies := np_fftfreq N dt
    let pairs := (frequencies.zip amplitudes).filter (fun q => 0 < q.1)
    let pos_freqs := pairs.map Prod.fst
    match pairs.map Prod.snd with
    | [] => Except.error PyErr.valueError
    | a :: rest =>
      let dominant_idx := np_argmax_go rest 1 0 a
      let dominant_freq := pos_freqs.getD dominant_idx 0
      let theoretical_freq : ℝ :=
        if zeta sol.params < 9 / 10 then omega_d sol.params / (2 * Real.pi) else 0
      let freq_error : ℝ :=
        if 0 < theoretical_freq
        then |(dominant_freq : ℝ) - theoretical_freq| / theoretical_freq * 100
        else 0
      Except.ok ⟨pos_freqs, a :: rest, dominant_freq, theoretical_freq, freq_error⟩
  | _ => Except.error PyErr.indexError

/-- Arithmetic mean `np.mean` of a list of reals (sum divided by length). -/
noncomputable def np_mean (l : List ℝ) : ℝ := l.sum / l.length

open Classical in
/-- The float pipeline `|error| / |x_analytical|` evaluated under
`np.errstate(divide=ignore, invalid=ignore)` and then passed through
`np.nan_to_num(.., nan=0, posinf=0, neginf=0)`: a zero denominator produces
`inf` or `nan`, both of which are mapped to 0, so the guarded quotient is 0
whenever the denominator is 0 and the plain quotient otherwise. -/
noncomputable def np_guarded_div (a b : ℝ) : ℝ :=
  if b = 0 then 0 else a / b

/-- The analytical position samples `analytical_solution(params, t)[0]` that
`validate_numerical_solution` compares against. -/
noncomputable def x_analytical_of (sol : Solution) : List ℝ :=
  sol.t.map (fun ti => (analytical_solution sol.params (ti : ℝ)).1)

/-- The per-sample relative errors `np.abs(error) / np.abs(x_analytical)`
after the `nan_to_num` guard, where `error = x_numerical - x_analytical`. -/
noncomputable def rel_error_entries (sol : Solution) : List ℝ :=
  List.zipWith (fun e xa => np_guarded_div |e| |xa|)
    (List.zipWith (fun a b => a - b) (sol.x.map (fun q => (q : ℝ))) (x_analytical_of sol))
    (x_analytical_of sol)

/-- Pearson correlation coefficient `np.corrcoef(a, b)[0, 1]`. -/
noncomputable def np_corrcoef (a b : List ℝ) : ℝ :=
  let ma := np_mean a
  let mb := np_mean b
  (List.zipWith (fun ai bi => (ai - ma) * (bi - mb)) a b).sum /
    Real.sqrt ((a.map (fun ai => (ai - ma) ^ 2)).sum * (b.map (fun bi => (bi - mb) ^ 2)).sum)

/-- The dictionary returned by `validate_numerical_solution` (the source also
echoes `x_analytical`; `is_accurate` is the 1%-of-peak test). -/
structure ValidationResult where
  x_analytical : List ℝ
  max_error : ℝ
  rms_error : ℝ
  relative_error : ℝ
  correlation : ℝ
  is_accurate : Prop

/-- `validate_numerical_solution(solution)`: error metrics of the numerical
trajectory against the analytical one. `np.max` over the nonnegative
absolute-error array is modelled as a fold of `max` from 0. -/
noncomputable def validate_numerical_solution (sol : Solution) : ValidationResult :=
  let x_analytical := x_analytical_of sol
  let error := List.zipWith (fun a b => a - b) (sol.x.map (fun q => (q : ℝ))) x_analytical
  let max_error := (error.map (fun e => |e|)).foldr max 0
  let rms_error := Real.sqrt (np_mean (error.map (fun e => e ^ 2)))
  let relative_error := np_mean (rel_error_entries sol) * 100
  let correlation := np_corrcoef (sol.x.map (fun q => (q : ℝ))) x_analytical
  ⟨x_analytical, max_error, rms_error, relative_error, correlation,
   rms_error < 1 / 100 * ((x_analytical.map (fun e => |e|)).foldr max 0)⟩

/-- `np.linspace(lo, hi, n)` with the default inclusive endpoint. -/
noncomputable def np_linspace (lo hi : ℝ) (n : ℕ) : List ℝ :=
  (List.range n).map (fun i => lo + (hi - lo) * i / (n - 1))

/-- The dictionary returned by `resonance_analysis`; `float("inf")` for the
quality factor of an undamped system is modelled as `⊤ : EReal`. -/
structure ResonanceResult where
  omega : List ℝ
  amplitude : List ℝ
  resonance_omega : ℝ
  Q_factor : EReal
  bandwidth : ℝ

open Classical in
/-- `resonance_analysis(params, omega_range=None, n_points=100)`: frequency
sweep (default range `0.1*omega_n .. 3*omega_n`), normalized response
`1/sqrt((1-r^2)^2 + (2*zeta*r)^2)`, resonance peak `omega_n*sqrt(1-2*zeta^2)`
when `zeta < 1/sqrt(2)` (else 0), quality factor `1/(2*zeta)` when `zeta > 0`
(else infinite), and 3dB bandwidth `2*zeta*omega_n`. -/
noncomputable def resonance_analysis (p : SpringParameters)
    (omega_range : Option (ℝ × ℝ)) (n_points : ℕ) : ResonanceResult :=
  let wn := omega_n p
  let z := zeta p
  let rng := match omega_range with
    | some r => r
    | none => (1 / 10 * wn, 3 * wn)
  let omega := np_linspace rng.1 rng.2 n_points
  let amplitude := omega.map (fun w =>
    1 / Real.sqrt ((1 - (w / wn) ^ 2) ^ 2 + (2 * z * (w / wn)) ^ 2))
  let resonance_omega := if z < 1 / Real.sqrt 2 then wn * Real.sqrt (1 - 2 * z ^ 2) else 0
  let Q_factor : EReal := if 0 < z then ((1 / (2 * z) : ℝ) : EReal) else ⊤
  let bandwidth := 2 * z * wn
  ⟨omega, amplitude, resonance_omega, Q_factor, bandwidth⟩

/-! ## Helper lemmas -/

lemma dissipated_go_chain (c dt : ℚ) (hc : 0 ≤ c) (hdt : 0 ≤ dt) :
    ∀ (l : List ℚ) (prev : ℚ),
      List.Chain' (fun a b => a ≤ b) (prev :: dissipated_go c dt prev l) := by
  intro l
  induction l with
  | nil => intro prev; simp [dissipated_go]
  | cons vi rest ih =>
    intro prev
    rw [dissipated_go]
    refine List.Chain'.cons ?_ (ih _)
    have hn : 0 ≤ c * vi ^ 2 * dt := mul_nonneg (mul_nonneg hc (sq_nonneg vi)) hdt
    linarith

lemma dissipated_go_zero (dt : ℚ) :
    ∀ (l : List ℚ), dissipated_go 0 dt 0 l = List.replicate l.length 0 := by
  intro l
  induction l with
  | nil => simp [dissipated_go]
  | cons vi rest ih => simp [dissipated_go, ih, List.replicate_succ]

/-! ## C4: dissipated energy starts at zero, is monotone, vanishes without damping -/

/-- C4: for every damping coefficient `c ≥ 0`, velocity array and positive
time step, `calculate_dissipated_energy` returns an array that starts at 0,
is monotonically non-decreasing between consecutive samples, and is
identically zero when `c = 0`. -/
theorem dissipated_energy_props (c : ℚ) (v : List ℚ) (dt : ℚ)
    (hc : 0 ≤ c) (hdt : 0 < dt) :
    (0 < (calculate_dissipated_energy c v dt).length →
      (calculate_dissipated_energy c v dt).getD 0 0 = 0) ∧
    (∀ i, i + 1 < (calculate_dissipated_energy c v dt).length →
      (calculate_dissipated_energy c v dt).getD i 0
        ≤ (calculate_dissipated_energy c v dt).getD (i + 1) 0) ∧
    (c = 0 → calculate_dissipated_energy c v dt = List.replicate v.length 0) := by
  refine ⟨?_, ?_, ?_⟩
  · intro _
    cases v with
    | nil => simp [calculate_dissipated_energy]
    | cons v0 rest => simp [calculate_dissipated_energy]
  · intro i hi
    cases v with
    | nil => simp [calculate_dissipated_energy] at hi
    | cons v0 rest =>
      have hchain := dissipated_go_chain c dt hc (le_of_lt hdt) rest 0
      have hfull : calculate_dissipated_energy c (v0 :: rest) dt
          = 0 :: dissipated_go c dt 0 rest := rfl
      rw [hfull] at hi ⊢
      have := (List.chain'_iff_get.mp hchain) i (by
        simpa [Nat.lt_sub_iff_add_lt] using hi)
      rw [List.getD_eq_getElem _ _ (Nat.lt_of_succ_lt hi), List.getD_eq_getElem _ _ hi]
      simpa using this
  · intro hc0
    subst hc0
    cases v with
    | nil => simp [calculate_dissipated_energy]
    | cons v0 rest =>
      simp [calculate_dissipated_energy, dissipated_go_zero, List.replicate_succ]

/-- Witness for C4 at `c = 1`, `v = [1, -2]`, `dt = 1/2`. -/
theorem dissipated_energy_props_witness :
    (calculate_dissipated_energy 1 [1, -2] (1/2)).getD 0 0
      ≤ (calculate_dissipated_energy 1 [1, -2] (1/2)).getD 1 0 :=
  (dissipated_energy_props 1 [1, -2] (1/2) (by norm_num) (by norm_num)).2.1 0
    (by norm_num [calculate_dissipated_energy, dissipated_go])

/-! ## C1: `solve_spring_system` performs no parameter validation -/

/-- C1 counterexample: a call with an invalid (negative) mass is NOT rejected:
`solve_spring_system` with `m = -1` returns a trajectory (the integrator is
invoked and integration proceeds), contradicting the claim that every call
with invalid parameters raises a descriptive error before integration. -/
theorem solve_no_reject_cex :
    (solve_spring_system odeint_euler ⟨-1, 1, 0, 1, 0⟩ (0, 3/1000) (1/1000)
      none).toOption.isSome = true := rfl

/-- C1 amended: `solve_spring_system` never validates its parameters. Even
when the mass or stiffness is non-positive or the time span is reversed, no
error is raised before integration: whenever the underlying integrator call
succeeds, the whole call succeeds. -/
theorem solve_no_validation (odeint : OdeintT) (p : SpringParameters)
    (span : ℚ × ℚ) (dt : ℚ) (F : Option (ℚ → ℚ))
    (hbad : p.m ≤ 0 ∨ p.k ≤ 0 ∨ span.2 ≤ span.1)
    (hode : ∀ f y0 ts, (odeint f y0 ts).toOption.isSome = true) :
    (solve_spring_system odeint p span dt F).toOption.isSome = true := by
  unfold solve_spring_system
  have h := hode (fun s t => spring_system_derivatives s t p F) (p.x0, p.v0)
    (np_arange span.1 span.2 dt)
  cases hout : odeint (fun s t => spring_system_derivatives s t p F) (p.x0, p.v0)
      (np_arange span.1 span.2 dt) with
  | error e => rw [hout] at h; simp [Except.toOption] at h
  | ok states => simp [hout, Except.toOption]

/-- Witness for C1 (amended) at non-positive stiffness `k = -5` with the
Euler instance of the integrator. -/
theorem solve_no_validation_witness :
    (solve_spring_system odeint_euler ⟨1, -5, 0, 1, 0⟩ (0, 2/1000) (1/1000)
      none).toOption.isSome = true :=
  solve_no_validation odeint_euler ⟨1, -5, 0, 1, 0⟩ (0, 2/1000) (1/1000) none
    (Or.inr (Or.inl (by norm_num))) (fun f y0 ts => rfl)

/-! ## C9: energy arrays of a returned trajectory -/

/-- C9: for every trajectory returned by `solve_spring_system` (with any
integrator), the energy arrays satisfy `KE[i] = 0.5*m*v[i]^2`,
`PE[i] = 0.5*k*x[i]^2`, and `E_total[i] = KE[i] + PE[i]` exactly —
`E_total` is formed by adding the two arrays elementwise. -/
theorem solve_energy_identities (odeint : OdeintT) (p : SpringParameters)
    (span : ℚ × ℚ) (dt : ℚ) (F : Option (ℚ → ℚ)) (sol : Solution)
    (h : solve_spring_system odeint p span dt F = Except.ok sol) :
    sol.KE.length = sol.v.length ∧ sol.PE.length = sol.x.length ∧
    sol.E_total.length = min sol.KE.length sol.PE.length ∧
    (∀ i, i < sol.v.length → sol.KE.getD i 0 = 1 / 2 * p.m * (sol.v.getD i 0) ^ 2) ∧
    (∀ i, i < sol.x.length → sol.PE.getD i 0 = 1 / 2 * p.k * (sol.x.getD i 0) ^ 2) ∧
    (∀ i, i < sol.E_total.length →
      sol.E_total.getD i 0 = sol.KE.getD i 0 + sol.PE.getD i 0) := by
  simp only [solve_spring_system] at h
  split at h
  · exact absurd h (by simp)
  · rename_i states heq
    injection h with hsol
    subst hsol
    refine ⟨?_, ?_, ?_, ?_, ?_, ?_⟩
    · simp [calculate_kinetic_energy]
    · simp [calculate_potential_energy]
    · simp [calculate_kinetic_energy, calculate_potential_energy]
    · intro i hi
      simp only [calculate_kinetic_energy, List.length_map] at hi ⊢
      rw [List.getD_eq_getElem _ _ (by simpa using hi),
        List.getD_eq_getElem _ _ (by simpa using hi), List.getElem_map]
    · intro i hi
      simp only [calculate_potential_energy, List.length_map] at hi ⊢
      rw [List.getD_eq_getElem _ _ (by simpa using hi),
        List.getD_eq_getElem _ _ (by simpa using hi), List.getElem_map]
    · intro i hi
      simp only [List.length_zipWith, calculate_kinetic_energy,
        calculate_potential_energy, List.length_map] at hi
      have hke : i < (calculate_kinetic_energy p.m (states.map Prod.snd)).length := by
        simp [calculate_kinetic_energy]; omega
      have hpe : i < (calculate_potential_energy p.k (states.map Prod.fst)).length := by
        simp [calculate_potential_energy]; omega
      rw [List.getD_eq_getElem _ _ (by
          simp [calculate_kinetic_energy, calculate_potential_energy,
            List.length_zipWith]; omega),
        List.getD_eq_getElem _ _ hke, List.getD_eq_getElem _ _ hpe,
        List.getElem_zipWith]

/-- Witness for C9: a concrete two-sample Euler run of the spring-mass
system `m = k = 1`, `c = 0`, `x0 = 1`, `v0 = 0` over `[0, 2)` at step 1. -/
theorem solve_energy_identities_witness :
    (solve_spring_system odeint_euler ⟨1, 1, 0, 1, 0⟩ (0, 2) 1 none
      = Except.ok ⟨[0, 1], [1, 1], [0, -1], [-1, -1], [0, 1/2], [1/2, 1/2],
          [1/2, 1], [0, 0], ⟨1, 1, 0, 1, 0⟩⟩) ∧
    ([1/2, 1] : List ℚ).getD 1 0
      = ([0, 1/2] : List ℚ).getD 1 0 + ([1/2, 1/2] : List ℚ).getD 1 0 := by
  have hr : List.range (Int.toNat 2) = [0, 1] := rfl
  have hok : solve_spring_system odeint_euler ⟨1, 1, 0, 1, 0⟩ (0, 2) 1 none
      = Except.ok ⟨[0, 1], [1, 1], [0, -1], [-1, -1], [0, 1/2], [1/2, 1/2],
          [1/2, 1], [0, 0], ⟨1, 1, 0, 1, 0⟩⟩ := by
    norm_num [solve_spring_system, odeint_euler, np_arange, hr, euler_go,
      spring_system_derivatives, calculate_net_force, calculate_spring_force,
      calculate_damping_force, calculate_acceleration, external_force_at,
      calculate_acceleration_array, calculate_kinetic_energy,
      calculate_potential_energy, calculate_dissipated_energy, dissipated_go]
  refine ⟨hok, ?_⟩
  have h := (solve_energy_identities odeint_euler ⟨1, 1, 0, 1, 0⟩ (0, 2)
    1 none _ hok).2.2.2.2.2 1 (by norm_num [hok])
  simpa [hok] using h

/-! ## C8: `frequency_analysis` on degenerate trajectories -/

/-- C8 counterexample: `frequency_analysis` has no explicit precondition
check. On an empty trajectory it fails with the out-of-bounds indexing error
raised by `dt = t[1] - t[0]` inside library code, not with a descriptive
precondition-violation error. -/
theorem frequency_analysis_no_precondition_cex :
    frequency_analysis ⟨[], [], [], [], [], [], [], [], ⟨1, 1, 0, 0, 0⟩⟩
        = Except.error PyErr.indexError ∧
      frequency_analysis ⟨[], [], [], [], [], [], [], [], ⟨1, 1, 0, 0, 0⟩⟩
        ≠ Except.error PyErr.preconditionError := by
  constructor
  · rfl
  · intro hcontra
    have : PyErr.indexError = PyErr.preconditionError := by
      have h1 : frequency_analysis ⟨[], [], [], [], [], [], [], [], ⟨1, 1, 0, 0, 0⟩⟩
          = Except.error PyErr.indexError := rfl
      rw [h1] at hcontra
      exact (Except.error.inj hcontra)
    exact absurd this (by simp)

/-- C8 amended: for every trajectory with fewer than 2 time samples,
`frequency_analysis` fails with the index-out-of-bounds error produced by
evaluating `t[1] - t[0]` (no sample-count precondition exists in the code). -/
theorem frequency_analysis_index_error (sol : Solution) (h : sol.t.length < 2) :
    frequency_analysis sol = Except.error PyErr.indexError := by
  rcases hT : sol.t with _ | ⟨t0, rest0⟩
  · unfold frequency_analysis
    rw [hT]
  · rcases hR : rest0 with _ | ⟨t1, rest1⟩
    · unfold frequency_analysis
      rw [hT, hR]
    · rw [hT, hR] at h
      simp only [List.length_cons] at h
      omega

/-- Witness for C8 (amended) on a one-sample trajectory. -/
theorem frequency_analysis_index_error_witness :
    frequency_analysis ⟨[0], [1], [1], [-1], [0], [0], [0], [0], ⟨1, 1, 0, 1, 0⟩⟩
      = Except.error PyErr.indexError :=
  frequency_analysis_index_error ⟨[0], [1], [1], [-1], [0], [0], [0], [0], ⟨1, 1, 0, 1, 0⟩⟩
    (by norm_num)

lemma sqrt_hundred : Real.sqrt 100 = 10 := by
  rw [show (100 : ℝ) = 10 ^ 2 by norm_num]
  exact Real.sqrt_sq (by norm_num)

/-! ## C3: damping regime classification -/

/-- C3: `damping_type` classifies exactly by: `c = 0` gives UNDAMPED;
otherwise `zeta` within `np.isclose`'s 10% relative tolerance of 1 gives
CRITICALLY_DAMPED; otherwise `zeta < 1` gives UNDERDAMPED; otherwise
OVERDAMPED. In particular `m = 1, k = 100, c = 20` (so `zeta = 1`) is
CRITICALLY_DAMPED. -/
theorem damping_type_classification (p : SpringParameters)
    (hm : 0 < p.m) (hk : 0 < p.k) :
    (p.c = 0 → damping_type p = DampingType.UNDAMPED) ∧
    (p.c ≠ 0 → np_isclose (zeta p) 1 (1 / 10) np_atol →
      damping_type p = DampingType.CRITICALLY_DAMPED) ∧
    (p.c ≠ 0 → ¬ np_isclose (zeta p) 1 (1 / 10) np_atol → zeta p < 1 →
      damping_type p = DampingType.UNDERDAMPED) ∧
    (p.c ≠ 0 → ¬ np_isclose (zeta p) 1 (1 / 10) np_atol → 1 ≤ zeta p →
      damping_type p = DampingType.OVERDAMPED) ∧
    damping_type ⟨1, 100, 20, 0, 0⟩ = DampingType.CRITICALLY_DAMPED := by
  refine ⟨?_, ?_, ?_, ?_, ?_⟩
  · intro h; unfold damping_type; rw [if_pos h]
  · intro h1 h2; unfold damping_type; rw [if_neg h1, if_pos h2]
  · intro h1 h2 h3; unfold damping_type; rw [if_neg h1, if_neg h2, if_pos h3]
  · intro h1 h2 h3; unfold damping_type
    rw [if_neg h1, if_neg h2, if_neg (not_lt.mpr h3)]
  · have hz : zeta ⟨1, 100, 20, 0, 0⟩ = 1 := by
      simp only [zeta]
      norm_num [sqrt_hundred]
    have hcl : np_isclose (zeta ⟨1, 100, 20, 0, 0⟩) 1 (1 / 10) np_atol := by
      rw [hz]
      unfold np_isclose np_atol
      norm_num
    unfold damping_type
    rw [if_neg (by norm_num : ¬((⟨1, 100, 20, 0, 0⟩ : SpringParameters).c = 0)),
      if_pos hcl]

/-- Witness for C3: the boundary instance `m = 1, k = 100, c = 20`. -/
theorem damping_type_classification_witness :
    damping_type ⟨1, 100, 20, 0, 0⟩ = DampingType.CRITICALLY_DAMPED :=
  (damping_type_classification ⟨1, 100, 20, 0, 0⟩ (by norm_num) (by norm_num)).2.2.2.2

/-! ## C2: branch selection of `analytical_solution` vs `damping_type` -/

/-- C2: at `m = 1, k = 100, c = 19` the damping ratio is `0.95`, inside the
10% near-critical band, so `damping_type` classifies CRITICALLY_DAMPED — yet
`analytical_solution` selects the UNDERDAMPED closed-form branch, because its
`elif zeta < 1` test precedes the near-critical test. The critically damped
branch of `analytical_solution` is unreachable for any `zeta < 1`,
contradicting the classification thresholds of `damping_type` and the
source's own branch comment. -/
theorem analytical_branch_mismatch :
    analytical_branch ⟨1, 100, 19, 1, 0⟩ = DampingType.UNDERDAMPED ∧
    damping_type ⟨1, 100, 19, 1, 0⟩ = DampingType.CRITICALLY_DAMPED := by
  have hz : zeta ⟨1, 100, 19, 1, 0⟩ = 19 / 20 := by
    simp only [zeta]
    norm_num [sqrt_hundred]
  have hlt : zeta ⟨1, 100, 19, 1, 0⟩ < 1 := by rw [hz]; norm_num
  have hcl : np_isclose (zeta ⟨1, 100, 19, 1, 0⟩) 1 (1 / 10) np_atol := by
    rw [hz]
    unfold np_isclose np_atol
    rw [show |(19 : ℝ) / 20 - 1| = 1 / 20 by
      rw [abs_sub_comm, abs_of_nonneg (by norm_num : (0:ℝ) ≤ 1 - 19 / 20)]; norm_num]
    norm_num
  constructor
  · unfold analytical_branch
    rw [if_neg (by norm_num : ¬((⟨1, 100, 19, 1, 0⟩ : SpringParameters).c = 0)),
      if_pos hlt]
  · unfold damping_type
    rw [if_neg (by norm_num : ¬((⟨1, 100, 19, 1, 0⟩ : SpringParameters).c = 0)),
      if_pos hcl]

lemma sqrt_two_lt_twenty : Real.sqrt 2 < 20 := by
  have h := Real.sqrt_lt_sqrt (by norm_num : (0:ℝ) ≤ 2) (by norm_num : (2:ℝ) < 400)
  rwa [show (400 : ℝ) = 20 ^ 2 by norm_num, Real.sqrt_sq (by norm_num)] at h

lemma sqrt_two_pos : 0 < Real.sqrt 2 := Real.sqrt_pos.mpr (by norm_num)

/-! ## C5: resonance analysis -/

/-- C5: `resonance_analysis` returns `resonance_omega = omega_n*sqrt(1-2*zeta^2)`
when `zeta < 1/sqrt(2)` and 0 otherwise, `Q_factor = 1/(2*zeta)` when
`zeta > 0` and the infinite sentinel when `zeta = 0`, and
`bandwidth = 2*zeta*omega_n`; in particular the resonance frequency is
positive for `zeta = 0.05` (`m=1, k=100, c=1`) and zero for `zeta = 1.5`
(`m=1, k=100, c=30`). -/
theorem resonance_analysis_spec :
    (∀ (p : SpringParameters) (rng : Option (ℝ × ℝ)) (n : ℕ),
      0 < p.m → 0 < p.k → 0 ≤ p.c →
      ((zeta p < 1 / Real.sqrt 2 →
        (resonance_analysis p rng n).resonance_omega
          = omega_n p * Real.sqrt (1 - 2 * (zeta p) ^ 2)) ∧
       (1 / Real.sqrt 2 ≤ zeta p → (resonance_analysis p rng n).resonance_omega = 0) ∧
       (0 < zeta p →
        (resonance_analysis p rng n).Q_factor = ((1 / (2 * zeta p) : ℝ) : EReal)) ∧
       (zeta p = 0 → (resonance_analysis p rng n).Q_factor = (⊤ : EReal)) ∧
       (resonance_analysis p rng n).bandwidth = 2 * zeta p * omega_n p)) ∧
    0 < (resonance_analysis ⟨1, 100, 1, 0, 0⟩ none 100).resonance_omega ∧
    (resonance_analysis ⟨1, 100, 30, 0, 0⟩ none 100).resonance_omega = 0 := by
  have hgen : ∀ (p : SpringParameters) (rng : Option (ℝ × ℝ)) (n : ℕ),
      0 < p.m → 0 < p.k → 0 ≤ p.c →
      ((zeta p < 1 / Real.sqrt 2 →
        (resonance_analysis p rng n).resonance_omega
          = omega_n p * Real.sqrt (1 - 2 * (zeta p) ^ 2)) ∧
       (1 / Real.sqrt 2 ≤ zeta p → (resonance_analysis p rng n).resonance_omega = 0) ∧
       (0 < zeta p →
        (resonance_analysis p rng n).Q_factor = ((1 / (2 * zeta p) : ℝ) : EReal)) ∧
       (zeta p = 0 → (resonance_analysis p rng n).Q_factor = (⊤ : EReal)) ∧
       (resonance_analysis p rng n).bandwidth = 2 * zeta p * omega_n p) := by
    intro p rng n _ _ _
    refine ⟨?_, ?_, ?_, ?_, ?_⟩
    · intro h; simp only [resonance_analysis]; rw [if_pos h]
    · intro h; simp only [resonance_analysis]; rw [if_neg (not_lt.mpr h)]
    · intro h; simp only [resonance_analysis]; rw [if_pos h]
    · intro h; simp only [resonance_analysis]; rw [if_neg (by rw [h]; exact lt_irrefl 0)]
    · simp only [resonance_analysis]
  refine ⟨hgen, ?_, ?_⟩
  · have hz : zeta ⟨1, 100, 1, 0, 0⟩ = 1 / 20 := by
      simp only [zeta]; norm_num [sqrt_hundred]
    have hwn : omega_n ⟨1, 100, 1, 0, 0⟩ = 10 := by
      simp only [omega_n]; norm_num [sqrt_hundred]
    have hlt : zeta ⟨1, 100, 1, 0, 0⟩ < 1 / Real.sqrt 2 := by
      rw [hz]
      exact one_div_lt_one_div_of_lt sqrt_two_pos sqrt_two_lt_twenty
    have hres := (hgen ⟨1, 100, 1, 0, 0⟩ none 100 (by norm_num) (by norm_num)
      (by norm_num)).1 hlt
    rw [hres, hz, hwn]
    have : (0:ℝ) < Real.sqrt (1 - 2 * (1 / 20) ^ 2) := by
      apply Real.sqrt_pos.mpr; norm_num
    positivity
  · have hz : zeta ⟨1, 100, 30, 0, 0⟩ = 3 / 2 := by
      simp only [zeta]; norm_num [sqrt_hundred]
    have hge : 1 / Real.sqrt 2 ≤ zeta ⟨1, 100, 30, 0, 0⟩ := by
      rw [hz]
      have h1 : 1 / Real.sqrt 2 ≤ 1 := by
        rw [div_le_one sqrt_two_pos]
        have := Real.sqrt_le_sqrt (by norm_num : (1:ℝ) ≤ 2)
        rwa [Real.sqrt_one] at this
      linarith
    exact (hgen ⟨1, 100, 30, 0, 0⟩ none 100 (by norm_num) (by norm_num)
      (by norm_num)).2.1 hge

/-- Witness for C5 at `m = 1, k = 100, c = 1` with the default sweep. -/
theorem resonance_analysis_spec_witness :
    (resonance_analysis ⟨1, 100, 1, 0, 0⟩ none 100).bandwidth
      = 2 * zeta ⟨1, 100, 1, 0, 0⟩ * omega_n ⟨1, 100, 1, 0, 0⟩ :=
  (resonance_analysis_spec.1 ⟨1, 100, 1, 0, 0⟩ none 100 (by norm_num) (by norm_num)
    (by norm_num)).2.2.2.2

lemma omega_n_pos (p : SpringParameters) (hm : 0 < p.m) (hk : 0 < p.k) :
    0 < omega_n p := by
  apply Real.sqrt_pos.mpr
  apply div_pos
  · exact_mod_cast hk
  · exact_mod_cast hm

lemma zeta_nonneg (p : SpringParameters) (hc : 0 ≤ p.c) : 0 ≤ zeta p := by
  apply div_nonneg
  · exact_mod_cast hc
  · positivity

/-! ## C10: the analytical solution reproduces the initial conditions -/

/-- C10: for every parameter set with `m > 0`, `k > 0`, `c ≥ 0`, evaluating
`analytical_solution` at `t = 0` gives exactly `(x0, v0)`, in whichever of
the four closed-form branches is taken. -/
theorem analytical_solution_initial_conditions (p : SpringParameters)
    (hm : 0 < p.m) (hk : 0 < p.k) (hc : 0 ≤ p.c) :
    analytical_solution p 0 = ((p.x0 : ℝ), (p.v0 : ℝ)) := by
  have hwn : 0 < omega_n p := omega_n_pos p hm hk
  have hz0 : 0 ≤ zeta p := zeta_nonneg p hc
  unfold analytical_solution analytical_branch
  split_ifs with h1 h2 h3
  · -- undamped branch
    simp only [mul_zero, Real.cos_zero, Real.sin_zero, Prod.mk.injEq]
    constructor
    · ring
    · field_simp
  · -- underdamped branch
    have hzsq : (zeta p) ^ 2 < 1 := by nlinarith
    have hod : 0 < omega_d p := by
      apply mul_pos hwn
      apply Real.sqrt_pos.mpr
      linarith
    simp only [mul_zero, neg_mul, neg_zero, Real.exp_zero, Real.cos_zero,
      Real.sin_zero, one_mul, Prod.mk.injEq]
    constructor
    · ring
    · field_simp
  · -- critically damped branch
    simp only [mul_zero, neg_mul, neg_zero, Real.exp_zero, Real.cos_zero,
      Real.sin_zero, one_mul, Prod.mk.injEq]
    constructor
    · ring
    · ring
  · -- overdamped branch
    have hge : 1 ≤ zeta p := not_lt.mp h2
    have hgt : 1 < zeta p := by
      unfold np_isclose np_atol at h3
      push_neg at h3
      rw [abs_of_nonneg (by linarith : (0:ℝ) ≤ zeta p - 1), abs_one] at h3
      linarith
    have hs : 0 < Real.sqrt ((zeta p) ^ 2 - 1) := by
      apply Real.sqrt_pos.mpr
      nlinarith
    have hne : -omega_n p * (zeta p - Real.sqrt ((zeta p) ^ 2 - 1))
        - -omega_n p * (zeta p + Real.sqrt ((zeta p) ^ 2 - 1)) ≠ 0 := by
      have : -omega_n p * (zeta p - Real.sqrt ((zeta p) ^ 2 - 1))
          - -omega_n p * (zeta p + Real.sqrt ((zeta p) ^ 2 - 1))
          = 2 * omega_n p * Real.sqrt ((zeta p) ^ 2 - 1) := by ring
      rw [this]
      positivity
    simp only [mul_zero, Real.exp_zero, mul_one, Prod.mk.injEq]
    constructor
    · rw [div_add_div_same, div_eq_iff hne]
      ring
    · rw [div_mul_eq_mul_div, div_mul_eq_mul_div, div_add_div_same, div_eq_iff hne]
      ring

/-- Witness for C10 at `m = 1, k = 100, c = 2, x0 = 1/2, v0 = -3`. -/
theorem analytical_solution_ic_witness :
    analytical_solution ⟨1, 100, 2, 1/2, -3⟩ 0 = ((1/2 : ℝ), (-3 : ℝ)) := by
  have h := analytical_solution_initial_conditions ⟨1, 100, 2, 1/2, -3⟩
    (by norm_num) (by norm_num) (by norm_num)
  simpa using h

/-! ## C7: relative error is guarded against zero analytical values -/

/-- C7: `validate_numerical_solution` forms its relative error as the mean of
the guarded per-sample quotients (times 100), and every sample whose
analytical position is exactly 0 contributes 0 (never a division blow-up) to
that mean; in this exact-arithmetic model the result is therefore always a
well-defined (finite) real number. -/
theorem relative_error_guard (sol : Solution) :
    (validate_numerical_solution sol).relative_error
      = np_mean (rel_error_entries sol) * 100 ∧
    ∀ i, i < (rel_error_entries sol).length →
      (x_analytical_of sol).getD i 1 = 0 → (rel_error_entries sol).getD i 0 = 0 := by
  constructor
  · rfl
  · intro i hi hz
    have hxa : i < (x_analytical_of sol).length := by
      simp only [rel_error_entries, List.length_zipWith, List.length_map] at hi
      omega
    rw [List.getD_eq_getElem _ _ hxa] at hz
    rw [List.getD_eq_getElem _ _ hi]
    unfold rel_error_entries
    simp only [List.getElem_zipWith]
    rw [hz]
    simp [np_guarded_div]

/-- Witness for C7: an undamped system at rest (`x0 = v0 = 0`), whose
analytical position is identically 0, compared against a nonzero numerical
trajectory — the guarded entry is 0, not a division error. -/
theorem relative_error_guard_witness :
    (rel_error_entries ⟨[0, 1], [1, 2], [0, 0], [0, 0], [0, 0], [0, 0], [0, 0],
      [0, 0], ⟨1, 100, 0, 0, 0⟩⟩).getD 0 0 = 0 := by
  have hb0 : analytical_branch ⟨1, 100, 0, 0, 0⟩ = DampingType.UNDAMPED := by
    unfold analytical_branch
    rw [if_pos rfl]
  have hx0 : ∀ t : ℝ, (analytical_solution ⟨1, 100, 0, 0, 0⟩ t).1 = 0 := by
    intro t
    unfold analytical_solution
    rw [hb0]
    simp
  refine (relative_error_guard _).2 0 ?_ ?_
  · simp [rel_error_entries, x_analytical_of, List.length_zipWith]
  · simp [x_analytical_of, hx0]

lemma np_fftfreq_length (N : ℕ) (d : ℚ) : (np_fftfreq N d).length = N := by
  simp [np_fftfreq]

lemma np_fft_amplitudes_length (x : List ℚ) (N : ℕ) :
    (np_fft_amplitudes x N).length = N := by
  simp [np_fft_amplitudes]

lemma np_fftfreq_getD_one (N : ℕ) (d : ℚ) (hN : 3 ≤ N) :
    (np_fftfreq N d).getD 1 0 = 1 / (N * d) := by
  have h1 : 1 < (np_fftfreq N d).length := by rw [np_fftfreq_length]; omega
  rw [List.getD_eq_getElem _ _ h1]
  unfold np_fftfreq
  simp only [List.getElem_map, List.getElem_range]
  rw [if_pos (by omega : 1 < (N + 1) / 2)]
  norm_num

/-! ## C6: theoretical frequency and frequency error policy -/

/-- C6 counterexample: on a trajectory with exactly two samples (the claim
only requires "at least two"), `np.fft.fftfreq(2, dt)` has no strictly
positive bin, so `frequency_analysis` dies in `np.argmax` of an empty array
instead of returning the claimed `theoretical_freq`/`freq_error` values. -/
theorem frequency_analysis_two_sample_cex :
    frequency_analysis ⟨[0, 1], [1, 2], [0, 0], [0, 0], [0, 0], [0, 0], [0, 0],
      [0, 0], ⟨1, 100, 2, 1, 0⟩⟩ = Except.error PyErr.valueError := by
  unfold frequency_analysis
  norm_num [np_fftfreq, List.range_succ, List.filter]

/-- C6 amended: for every trajectory with at least THREE samples whose first
two time samples increase, produced from parameters with `m > 0`, `k > 0`,
`frequency_analysis` succeeds and returns `theoretical_freq = omega_d/(2*pi)`
when `zeta < 0.9` and 0 otherwise, and
`freq_error = |dominant - theoretical| / theoretical * 100` when
`theoretical_freq > 0` and 0 otherwise. -/
theorem frequency_analysis_spec (sol : Solution) (t0 t1 : ℚ) (rest : List ℚ)
    (ht : sol.t = t0 :: t1 :: rest) (hlen : 3 ≤ sol.t.length) (hdt : t0 < t1)
    (hm : 0 < sol.params.m) (hk : 0 < sol.params.k) :
    ∃ r, frequency_analysis sol = Except.ok r ∧
      (zeta sol.params < 9 / 10 →
        r.theoretical_freq = omega_d sol.params / (2 * Real.pi)) ∧
      (9 / 10 ≤ zeta sol.params → r.theoretical_freq = 0) ∧
      (0 < r.theoretical_freq →
        r.freq_error
          = |(r.dominant_freq : ℝ) - r.theoretical_freq| / r.theoretical_freq * 100) ∧
      (r.theoretical_freq ≤ 0 → r.freq_error = 0) := by
  rw [ht] at hlen
  simp only [List.length_cons] at hlen
  have hN3 : 3 ≤ (t0 :: t1 :: rest).length := by simp; omega
  unfold frequency_analysis
  rw [ht]
  dsimp only
  have hlf : (np_fftfreq (t0 :: t1 :: rest).length (t1 - t0)).length
      = (t0 :: t1 :: rest).length := np_fftfreq_length _ _
  have hla : (np_fft_amplitudes sol.x (t0 :: t1 :: rest).length).length
      = (t0 :: t1 :: rest).length := np_fft_amplitudes_length _ _
  have h1z : 1 < ((np_fftfreq (t0 :: t1 :: rest).length (t1 - t0)).zip
      (np_fft_amplitudes sol.x (t0 :: t1 :: rest).length)).length := by
    rw [List.length_zip, hlf, hla]
    simp only [min_self, List.length_cons]
    omega
  have h1f : 1 < (np_fftfreq (t0 :: t1 :: rest).length (t1 - t0)).length := by
    rw [hlf]
    simp
  have hmem := List.getElem_mem h1z
  rw [List.getElem_zip] at hmem
  have hf1pos : (0:ℚ) < (np_fftfreq (t0 :: t1 :: rest).length (t1 - t0)).getD 1 0 := by
    rw [np_fftfreq_getD_one _ _ hN3]
    have hNq : (0:ℚ) < ((t0 :: t1 :: rest).length : ℚ) := by
      have h0 : 0 < (t0 :: t1 :: rest).length := by omega
      exact_mod_cast h0
    have hdt2 : (0:ℚ) < t1 - t0 := sub_pos.mpr hdt
    positivity
  rw [List.getD_eq_getElem _ _ h1f] at hf1pos
  have hmemf : ((np_fftfreq (t0 :: t1 :: rest).length (t1 - t0)).get ⟨1, h1f⟩,
      (np_fft_amplitudes sol.x (t0 :: t1 :: rest).length).get
        ⟨1, by rw [hla]; simp⟩) ∈
      List.filter (fun q => decide (0 < q.1))
        ((np_fftfreq (t0 :: t1 :: rest).length (t1 - t0)).zip
          (np_fft_amplitudes sol.x (t0 :: t1 :: rest).length)) := by
    apply List.mem_filter.mpr
    constructor
    · simpa using hmem
    · simp only [decide_eq_true_eq]
      simpa using hf1pos
  have hne := List.ne_nil_of_mem (List.mem_map_of_mem Prod.snd hmemf)
  cases hmp : List.map Prod.snd
      (List.filter (fun q => decide (0 < q.1))
        ((np_fftfreq (t0 :: t1 :: rest).length (t1 - t0)).zip
          (np_fft_amplitudes sol.x (t0 :: t1 :: rest).length))) with
  | nil => exact absurd hmp hne
  | cons a as =>
    refine ⟨_, rfl, ?_, ?_, ?_, ?_⟩
    · intro h
      dsimp only
      rw [if_pos h]
    · intro h
      dsimp only
      rw [if_neg (not_lt.mpr h)]
    · intro h
      dsimp only at h ⊢
      rw [if_pos h]
    · intro h
      dsimp only at h ⊢
      rw [if_neg (not_lt.mpr h)]

/-- Witness for C6 (amended): a three-sample trajectory of the underdamped
system `m = 1, k = 100, c = 2`. -/
theorem frequency_analysis_spec_witness :
    ∃ r, frequency_analysis ⟨[0, 1, 2], [1, 0, 0], [0, 0, 0], [0, 0, 0], [0, 0, 0],
        [0, 0, 0], [0, 0, 0], [0, 0, 0], ⟨1, 100, 2, 1/2, 0⟩⟩ = Except.ok r ∧
      (zeta ⟨1, 100, 2, 1/2, 0⟩ < 9 / 10 →
        r.theoretical_freq = omega_d ⟨1, 100, 2, 1/2, 0⟩ / (2 * Real.pi)) ∧
      (9 / 10 ≤ zeta ⟨1, 100, 2, 1/2, 0⟩ → r.theoretical_freq = 0) ∧
      (0 < r.theoretical_freq →
        r.freq_error
          = |(r.dominant_freq : ℝ) - r.theoretical_freq| / r.theoretical_freq * 100) ∧
      (r.theoretical_freq ≤ 0 → r.freq_error = 0) :=
  frequency_analysis_spec
    ⟨[0, 1, 2], [1, 0, 0], [0, 0, 0], [0, 0, 0], [0, 0, 0], [0, 0, 0], [0, 0, 0],
      [0, 0, 0], ⟨1, 100, 2, 1/2, 0⟩⟩ 0 1 [2] rfl (by simp) (by norm_num)
    (by norm_num) (by norm_num)
